import Mathlib

/-!
Verification of the retrieval/indexing core of the legal-document Q&A
application (src/src/services/rag_service.py and src/src/config.py),
as a shallow embedding in Lean 4.

Modelling conventions:
- machine words are Nat reduced mod 2^32 where overflow matters;
- external collaborators (the SemanticChunker, the Google embedding
  service behind FAISS.from_texts and query embedding, the HuggingFace
  cross-encoder, the on-disk cache) are parameters of an Env record,
  with outcomes as Except values, since the repository only calls them;
- Python hashlib.sha256(...).hexdigest() is modelled by a full
  executable SHA-256 over the UTF-8 bytes of the input (FIPS 180-4);
- float relevance scores are modelled as Int: every claim proved here
  depends only on comparisons and ordering, never on float rounding;
- a raised-and-uncaught Python exception is an Except.error value, and
  an exception swallowed by an except-clause is modelled by the branch
  the handler takes.
-/

namespace LegalRAG

/-! ### SHA-256, the semantics of hashlib.sha256 used at rag_service.py line 29 -/

/-- Truncation to a 32-bit word. -/
def w32 (x : Nat) : Nat := x % 4294967296

/-- Right rotation of a 32-bit word. -/
def rotr32 (n x : Nat) : Nat := w32 ((x >>> n) ||| (x <<< (32 - n)))

def bsig0 (x : Nat) : Nat := (rotr32 2 x) ^^^ (rotr32 13 x) ^^^ (rotr32 22 x)

def bsig1 (x : Nat) : Nat := (rotr32 6 x) ^^^ (rotr32 11 x) ^^^ (rotr32 25 x)

def ssig0 (x : Nat) : Nat := (rotr32 7 x) ^^^ (rotr32 18 x) ^^^ (x >>> 3)

def ssig1 (x : Nat) : Nat := (rotr32 17 x) ^^^ (rotr32 19 x) ^^^ (x >>> 10)

def chFn (x y z : Nat) : Nat := (x &&& y) ^^^ ((x ^^^ 4294967295) &&& z)

def majFn (x y z : Nat) : Nat := (x &&& y) ^^^ (x &&& z) ^^^ (y &&& z)

/-- Round constants of SHA-256, in decimal, K0 first. -/
def K256 : List Nat :=
  [1116352408, 1899447441, 3049323471, 3921009573, 961987163, 1508970993,
   2453635748, 2870763221, 3624381080, 310598401, 607225278, 1426881987,
   1925078388, 2162078206, 2614888103, 3248222580, 3835390401, 4022224774,
   264347078, 604807628, 770255983, 1249150122, 1555081692, 1996064986,
   2554220882, 2821834349, 2952996808, 3210313671, 3336571891, 3584528711,
   113926993, 338241895, 666307205, 773529912, 1294757372, 1396182291,
   1695183700, 1986661051, 2177026350, 2456956037, 2730485921, 2820302411,
   3259730800, 3345764771, 3516065817, 3600352804, 4094571909, 275423344,
   430227734, 506948616, 659060556, 883997877, 958139571, 1322822218,
   1537002063, 1747873779, 1955562222, 2024104815, 2227730452, 2361852424,
   2428436474, 2756734187, 3204031479, 3329325298]

/-- UTF-8 encoding of one character, the semantics of str.encode in Python. -/
def utf8Bytes (c : Char) : List Nat :=
  let n := c.toNat
  if n < 0x80 then [n]
  else if n < 0x800 then [0xc0 ||| (n >>> 6), 0x80 ||| (n &&& 0x3f)]
  else if n < 0x10000 then
    [0xe0 ||| (n >>> 12), 0x80 ||| ((n >>> 6) &&& 0x3f), 0x80 ||| (n &&& 0x3f)]
  else
    [0xf0 ||| (n >>> 18), 0x80 ||| ((n >>> 12) &&& 0x3f),
     0x80 ||| ((n >>> 6) &&& 0x3f), 0x80 ||| (n &&& 0x3f)]

def utf8Encode (s : String) : List Nat := (s.data.map utf8Bytes).flatten

/-- SHA-256 padding: append 0x80, zeros, then the 64-bit big-endian bit length. -/
def padMessage (msg : List Nat) : List Nat :=
  let len := msg.length
  let zeros := (64 - ((len + 9) % 64)) % 64
  let lenBytes := (List.range 8).map (fun i => ((len * 8) >>> (8 * (7 - i))) &&& 255)
  msg ++ [128] ++ List.replicate zeros 0 ++ lenBytes

/-- Split a padded message into 64-byte blocks. -/
def toBlocks (l : List Nat) : List (List Nat) :=
  (List.range (l.length / 64)).map (fun i => (l.drop (64 * i)).take 64)

/-- The sixteen 32-bit big-endian words of one 64-byte block. -/
def blockWords (b : List Nat) : List Nat :=
  (List.range 16).map (fun i =>
    b.getD (4 * i) 0 * 16777216 + b.getD (4 * i + 1) 0 * 65536 +
    b.getD (4 * i + 2) 0 * 256 + b.getD (4 * i + 3) 0)

/-- Message schedule: extend sixteen words to sixty-four. -/
def schedule (ws : List Nat) : List Nat :=
  (List.range 48).foldl
    (fun acc _ =>
      let t := acc.length
      acc ++ [w32 (ssig1 (acc.getD (t - 2) 0) + acc.getD (t - 7) 0 +
                   ssig0 (acc.getD (t - 15) 0) + acc.getD (t - 16) 0)])
    ws

/-- Working state of the compression function. -/
structure Hash8 where
  a : Nat
  b : Nat
  c : Nat
  d : Nat
  e : Nat
  f : Nat
  g : Nat
  hh : Nat
deriving DecidableEq, Repr

def roundStep (s : Hash8) (kw : Nat × Nat) : Hash8 :=
  let t1 := w32 (s.hh + bsig1 s.e + chFn s.e s.f s.g + kw.1 + kw.2)
  let t2 := w32 (bsig0 s.a + majFn s.a s.b s.c)
  ⟨w32 (t1 + t2), s.a, s.b, s.c, w32 (s.d + t1), s.e, s.f, s.g⟩

def compressBlock (s : Hash8) (block : List Nat) : Hash8 :=
  let ws := schedule (blockWords block)
  let r := (K256.zip ws).foldl roundStep s
  ⟨w32 (s.a + r.a), w32 (s.b + r.b), w32 (s.c + r.c), w32 (s.d + r.d),
   w32 (s.e + r.e), w32 (s.f + r.f), w32 (s.g + r.g), w32 (s.hh + r.hh)⟩

def sha256InitState : Hash8 :=
  ⟨1779033703, 3144134277, 1013904242, 2773480762,
   1359893119, 2600822924, 528734635, 1541459225⟩

def sha256Bytes (msg : List Nat) : Hash8 :=
  (toBlocks (padMessage msg)).foldl compressBlock sha256InitState

def hexDigit (n : Nat) : Char := "0123456789abcdef".data.getD n '0'

def toHex8 (x : Nat) : String :=
  String.mk ((List.range 8).map (fun i => hexDigit ((x >>> (4 * (7 - i))) &&& 15)))

/-- Model of hashlib.sha256(s.encode()).hexdigest(). -/
def sha256Hex (s : String) : String :=
  let d := sha256Bytes (utf8Encode s)
  toHex8 d.a ++ toHex8 d.b ++ toHex8 d.c ++ toHex8 d.d ++
  toHex8 d.e ++ toHex8 d.f ++ toHex8 d.g ++ toHex8 d.hh

/-! ### Data model of the retrieval core -/

/-- A langchain Document as the retriever returns it: only its text matters here. -/
structure Doc where
  pageContent : String
deriving DecidableEq, Repr

/-- The FAISS vector store built by FAISS.from_texts: it owns the chunk texts;
the vectors themselves live behind the external similarity oracle in Env. -/
structure VectorStore where
  texts : List String
deriving DecidableEq, Repr

/-- One persisted cache entry under vector_store_cache: either a well-formed
serialized index, or bytes that FAISS.load_local fails on (corrupt or
partially written). -/
inductive CacheEntry
  | valid (vs : VectorStore)
  | corrupt
deriving DecidableEq, Repr

/-- The on-disk cache directory: path to entry. -/
abbrev FileSystem := List (String × CacheEntry)

/-- Model of the HuggingFace cross-encoder: whether scoring calls succeed at
query time, and the score it assigns to a (query, passage) pair. -/
structure CrossEncoderModel where
  loaded : Bool
  score : String → String → Int

/-- External collaborators of rag_service.py, as the repository calls them:
SemanticChunker.split_text, FAISS.from_texts over the Google embedding
service, the query-embedding call made inside retriever invocation, the
FAISS similarity oracle, the cross-encoder, and the outcome of constructing
HuggingFaceCrossEncoder at initialization time. -/
structure Env where
  splitter : String → List String
  fromTexts : List String → Except String VectorStore
  embedQueryOk : Bool
  sim : String → String → Int
  ce : CrossEncoderModel
  ceLoadOk : Bool

/-- Failure conditions that can surface while the retriever runs. -/
inductive RetrievalError
  | embeddingUnavailable
  | crossEncoderUnavailable
deriving DecidableEq, Repr

/-- Exceptions that RAGService construction can raise. -/
inductive PyError
  | attributeError
  | crossEncoderLoadError
deriving DecidableEq, Repr

/-! ### Cache key (rag_service.py lines 29-30) -/

/-- The cache directory constant CACHE_DIR. -/
def CACHE_DIR : String := "vector_store_cache"

/-- Line 29: document_id is the SHA-256 hex digest of the document text bytes. -/
def documentId (document_text : String) : String := sha256Hex document_text

/-- Line 30: os.path.join(CACHE_DIR, document_id). -/
def cacheFolderPath (document_id : String) : String := CACHE_DIR ++ "/" ++ document_id

/-- Build parameters named by the spec for key_for: chunk size, overlap and
embedding-model identifier. The code has no such parameters; they are carried
here only so that their (non-)influence on the computed key can be stated. -/
structure BuildParams where
  chunkSize : Nat
  overlap : Nat
  embeddingModelId : String
deriving DecidableEq, Repr

/-- The cache key the code computes for a build request: the SHA-256 digest of
the document text alone (line 29). The params argument is ignored because no
build parameter flows into the hash in the source. -/
def cacheKeyFor (document_text : String) (_params : BuildParams) : String :=
  documentId document_text

/-! ### Chunking and index build (rag_service.py lines 51-77) -/

/-- Python truthiness test (not text or not text.strip()) guarding chunking:
the text is empty or strips to empty, that is, every character is whitespace. -/
def isBlank (text : String) : Bool := text.data.all Char.isWhitespace

/-- Lines 69-77, _get_semantic_chunks: blank or whitespace-only text yields no
chunks without calling the splitter; otherwise SemanticChunker.split_text. -/
def getSemanticChunks (env : Env) (text : String) : List String :=
  if isBlank text then [] else env.splitter text

/-- Result of the build-or-load phase: the vector store if one was obtained,
the cache state afterwards, and how many embedding-service invocations were
made (one for semantic chunking of non-blank text, one for FAISS.from_texts). -/
structure BuildResult where
  store : Option VectorStore
  fs : FileSystem
  embedCalls : Nat
deriving DecidableEq, Repr

/-- Lines 51-67, _build_and_save_vector_store: chunk, bail out with None on no
chunks, else FAISS.from_texts and save_local under the cache path; any
exception there is caught and None returned with nothing saved. -/
def buildAndSaveVectorStore (env : Env) (fs : FileSystem)
    (document_text cache_path : String) : BuildResult :=
  let chunks := getSemanticChunks env document_text
  let calls := if isBlank document_text then 0 else 1
  if chunks.isEmpty then ⟨none, fs, calls⟩
  else
    match env.fromTexts chunks with
    | .ok vs => ⟨some vs, (cache_path, CacheEntry.valid vs) :: fs, calls + 1⟩
    | .error _ => ⟨none, fs, calls + 1⟩

/-- Lines 34-44 of RAGService.__init__: if the cache path exists, try
FAISS.load_local; a load failure is caught and triggers a rebuild; a missing
path builds directly. A cache hit makes no embedding call. -/
def initVectorStore (env : Env) (fs : FileSystem) (document_text : String) :
    BuildResult :=
  let path := cacheFolderPath (documentId document_text)
  match fs.lookup path with
  | some (CacheEntry.valid vs) => ⟨some vs, fs, 0⟩
  | some CacheEntry.corrupt => buildAndSaveVectorStore env fs document_text path
  | none => buildAndSaveVectorStore env fs document_text path

/-! ### Retrieval and reranking (rag_service.py lines 79-111) -/

/-- Line 81: search_kwargs k = 7 fixed at reranker initialization. -/
def searchKwargsK : Nat := 7

/-- Line 85: CrossEncoderReranker top_n = 3 fixed at reranker initialization. -/
def rerankTopN : Nat := 3

/-- Similarity search of the base retriever (vector_store.as_retriever with
k = 7): the chunks ordered by descending similarity to the query, truncated
to k. Models FAISS similarity_search over the external embedding. -/
def searchK (env : Env) (vs : VectorStore) (query : String) (k : Nat) : List Doc :=
  ((vs.texts.map Doc.mk).insertionSort
    (fun a b => env.sim query b.pageContent ≤ env.sim query a.pageContent)).take k

/-- The candidates reordered by descending cross-encoder score, truncated to
top_n, as CrossEncoderReranker.compress_documents computes them. -/
def rerankDescending (env : Env) (query : String) (docs : List Doc) : List Doc :=
  (docs.insertionSort
    (fun a b => env.ce.score query b.pageContent ≤ env.ce.score query a.pageContent)).take
    rerankTopN

/-- CrossEncoderReranker.compress_documents: a failing cross-encoder raises
(there is no fallback in the reranker); otherwise top_n by descending score. -/
def compressDocuments (env : Env) (query : String) (docs : List Doc) :
    Except RetrievalError (List Doc) :=
  if env.ce.loaded then .ok (rerankDescending env query docs)
  else .error .crossEncoderUnavailable

/-- ContextualCompressionRetriever.get_relevant_documents: embed the query
(may fail), run the base similarity search, return [] directly on no
candidates, else compress through the reranker. -/
def getRelevantDocuments (env : Env) (vs : VectorStore) (query : String) :
    Except RetrievalError (List Doc) :=
  if env.embedQueryOk then
    let docs := searchK env vs query searchKwargsK
    if docs.isEmpty then .ok []
    else compressDocuments env query docs
  else .error .embeddingUnavailable

/-- The separator joining retrieved chunks into the returned context. -/
def contextSep : String := "\n\n---\n\n"

/-- Lines 93-111, retrieve_relevant_chunks: an absent retriever returns the
empty string; the retriever call is wrapped in try/except, every exception
mapping to the empty string; zero documents return the empty string; else the
page contents joined by the separator. The retriever slot holds the vector
store the compression retriever wraps. -/
def retrieveRelevantChunks (env : Env) (retriever : Option VectorStore)
    (query : String) : String :=
  match retriever with
  | none => ""
  | some vs =>
    match getRelevantDocuments env vs query with
    | .error _ => ""
    | .ok docs =>
      if docs.isEmpty then ""
      else String.intercalate contextSep (docs.map Doc.pageContent)

/-! ### Config (src/src/config.py) and full construction (rag_service.py 26-49) -/

/-- Class-level attribute names the Config class in src/src/config.py defines. -/
def configAttrNames : List String :=
  ["_GEMINI_API_KEY", "GEMINI_MODEL_NAME", "GEMINI_TEMPERATURE",
   "GEMINI_MAX_OUTPUT_TOKENS", "GEMINI_TOP_K", "GEMINI_TOP_P",
   "initialize_gemini", "OCR_ENABLED", "VISION_CLIENT", "initialize_vision",
   "TRANSLATE_CLIENT", "LANG_MAP", "SUPPORTED_LANGUAGES",
   "MAX_DOCUMENT_LENGTH", "MIN_TEXT_FOR_ANALYSIS", "ENABLE_PII_ANONYMIZATION",
   "SHOW_PII_MAPPING", "SUPPORTED_DOCUMENT_TYPES", "get_model_settings",
   "validate_file"]

/-- State of a constructed RAGService object. -/
structure RAGState where
  vectorStore : Option VectorStore
  retriever : Option VectorStore
deriving DecidableEq, Repr

/-- Result of a completed (non-raising) construction. -/
structure InitResult where
  state : RAGState
  fs : FileSystem
  embedCalls : Nat
deriving DecidableEq, Repr

/-- RAGService.__init__ end to end: line 32 reads Config.EMBEDDING_MODEL_NAME,
an AttributeError when the Config class does not define it, before any cache
probe, chunking or embedding; then the build-or-load phase of lines 34-44;
then lines 46-49 initialize the reranker (HuggingFaceCrossEncoder
construction may itself raise) when a store exists, else leave the retriever
absent. -/
def ragServiceInit (env : Env) (fs : FileSystem) (document_text : String) :
    Except PyError InitResult :=
  if configAttrNames.contains "EMBEDDING_MODEL_NAME" then
    let r := initVectorStore env fs document_text
    match r.store with
    | some vs =>
      if env.ceLoadOk then .ok ⟨⟨some vs, some vs⟩, r.fs, r.embedCalls⟩
      else .error .crossEncoderLoadError
    | none => .ok ⟨⟨none, none⟩, r.fs, r.embedCalls⟩
  else .error .attributeError

/-! ### Sample environments and inputs used by closed witness statements -/

/-- Environment in which every external collaborator behaves: one chunk per
sentence-free text, FAISS build succeeds, query embedding succeeds, the
cross-encoder is loaded. -/
def envOk : Env where
  splitter := fun t => [t]
  fromTexts := fun ts => .ok ⟨ts⟩
  embedQueryOk := true
  sim := fun _ c => Int.ofNat c.length
  ce := ⟨true, fun _ c => Int.ofNat c.length⟩
  ceLoadOk := true

/-- Environment whose embedding backend is down at query time. -/
def envEmbedDown : Env where
  splitter := fun t => [t]
  fromTexts := fun ts => .ok ⟨ts⟩
  embedQueryOk := false
  sim := fun _ c => Int.ofNat c.length
  ce := ⟨true, fun _ c => Int.ofNat c.length⟩
  ceLoadOk := true

/-- Environment whose cross-encoder fails at query time. -/
def envCeDown : Env where
  splitter := fun t => [t]
  fromTexts := fun ts => .ok ⟨ts⟩
  embedQueryOk := true
  sim := fun _ c => Int.ofNat c.length
  ce := ⟨false, fun _ c => Int.ofNat c.length⟩
  ceLoadOk := true

/-- Environment like envOk but with one cross-encoder scoring scale. -/
def envScoreA : Env where
  splitter := fun t => [t]
  fromTexts := fun ts => .ok ⟨ts⟩
  embedQueryOk := true
  sim := fun _ c => Int.ofNat c.length
  ce := ⟨true, fun _ c => Int.ofNat (2 * c.length)⟩
  ceLoadOk := true

/-- Environment like envScoreA except that every cross-encoder score differs,
while the induced ranking is the same. -/
def envScoreB : Env where
  splitter := fun t => [t]
  fromTexts := fun ts => .ok ⟨ts⟩
  embedQueryOk := true
  sim := fun _ c => Int.ofNat c.length
  ce := ⟨true, fun _ c => Int.ofNat (3 * c.length + 1)⟩
  ceLoadOk := true

/-- A cache holding one corrupt entry under the key of a concrete document. -/
def fsCorrupt : FileSystem :=
  [(cacheFolderPath (documentId "rental contract"), CacheEntry.corrupt)]

/-! ### Helper lemmas -/

theorem lookup_cons_self {β : Type} (k : String) (v : β) (l : List (String × β)) :
    List.lookup k ((k, v) :: l) = some v := by
  simp [List.lookup]

theorem buildAndSave_saves (env : Env) (fs : FileSystem) (doc path : String)
    (vs : VectorStore)
    (h : (buildAndSaveVectorStore env fs doc path).store = some vs) :
    (buildAndSaveVectorStore env fs doc path).fs.lookup path =
      some (CacheEntry.valid vs) := by
  unfold buildAndSaveVectorStore at h ⊢
  cases hch : (getSemanticChunks env doc).isEmpty with
  | true => simp [hch] at h
  | false =>
    cases hft : env.fromTexts (getSemanticChunks env doc) with
    | error e => simp [hch, hft] at h
    | ok vs0 =>
      simp only [hch, hft] at h ⊢
      simp only [Bool.false_eq_true, if_false] at h ⊢
      obtain rfl : vs0 = vs := by simpa using h
      exact lookup_cons_self _ _ _

/-! ### Claim C1 -/

/-- Claim C1, counterexample: two build requests for the same document whose
chunk size, overlap and embedding-model identifier all differ nevertheless
receive the same cache key, because the key computed at rag_service.py line 29
hashes the document text alone. -/
theorem c1_counterexample :
    cacheKeyFor "standard lease agreement" ⟨500, 50, "models/embedding-001"⟩ =
      cacheKeyFor "standard lease agreement" ⟨1000, 0, "models/text-embedding-004"⟩ ∧
    (500 : Nat) ≠ 1000 ∧ (50 : Nat) ≠ 0 ∧
    "models/embedding-001" ≠ "models/text-embedding-004" :=
  ⟨rfl, by decide, by decide, by decide⟩

/-- Claim C1 amended: the cache key is the deterministic SHA-256 digest of the
document bytes only; chunk size, overlap and embedding-model identifier never
enter it, so any two build requests over the same document text share one key
regardless of their build parameters. -/
theorem c1_key_is_document_hash_only (doc : String) (p p' : BuildParams) :
    cacheKeyFor doc p = cacheKeyFor doc p' ∧ cacheKeyFor doc p = sha256Hex doc :=
  ⟨rfl, rfl⟩

/-! ### Claim C2 -/

/-- Claim C2, counterexample: with the embedding backend down during retrieval
the call returns the empty string, the very value a successful retrieval over
an empty index returns, so the failure and the no-relevant-passages outcomes
are conflated into one result value. -/
theorem c2_counterexample :
    retrieveRelevantChunks envEmbedDown (some ⟨["indemnification clause"]⟩) "who pays" =
      retrieveRelevantChunks envOk (some ⟨[]⟩) "who pays" ∧
    getRelevantDocuments envEmbedDown ⟨["indemnification clause"]⟩ "who pays" =
      .error .embeddingUnavailable ∧
    getRelevantDocuments envOk ⟨[]⟩ "who pays" = .ok [] :=
  ⟨rfl, rfl, rfl⟩

/-- Claim C2 amended: every backend failure during retrieval and every
successful retrieval that found nothing are both mapped to the empty string by
retrieve_relevant_chunks; the two outcomes are distinguished only in log
output, never in the returned value. -/
theorem c2_failure_conflated_with_empty (env : Env) (vs : VectorStore)
    (q : String)
    (h : (∃ e, getRelevantDocuments env vs q = .error e) ∨
         getRelevantDocuments env vs q = .ok []) :
    retrieveRelevantChunks env (some vs) q = "" := by
  rcases h with ⟨e, he⟩ | he <;> simp [retrieveRelevantChunks, he]

/-- Claim C2 witness: the amended statement at a concrete down backend. -/
theorem c2_witness :
    ((∃ e, getRelevantDocuments envEmbedDown ⟨["late fee clause"]⟩ "q" = .error e) ∨
      getRelevantDocuments envEmbedDown ⟨["late fee clause"]⟩ "q" = .ok []) ∧
    retrieveRelevantChunks envEmbedDown (some ⟨["late fee clause"]⟩) "q" = "" :=
  ⟨.inl ⟨.embeddingUnavailable, rfl⟩,
   c2_failure_conflated_with_empty envEmbedDown ⟨["late fee clause"]⟩ "q"
     (.inl ⟨.embeddingUnavailable, rfl⟩)⟩

/-! ### Claim C3 -/

/-- Claim C3, counterexample: the vector search over this store yields a
non-empty candidate set, the cross-encoder is unavailable, and the request
returns the empty string instead of the candidates in similarity order, so a
reranker failure does produce an empty result. -/
theorem c3_counterexample :
    retrieveRelevantChunks envCeDown (some ⟨["arbitration clause", "notice period"]⟩) "q" = "" ∧
    searchK envCeDown ⟨["arbitration clause", "notice period"]⟩ "q" searchKwargsK ≠ [] :=
  ⟨rfl, by decide⟩

/-- Claim C3 amended: when the cross-encoder fails at query time over a
non-empty candidate set, retrieve_relevant_chunks swallows the exception and
returns the empty string; no fallback returns the candidates in their original
similarity order, and a cross-encoder failure at initialization time
propagates out of the constructor. -/
theorem c3_ce_failure_yields_empty (env : Env) (vs : VectorStore) (q : String)
    (hce : env.ce.loaded = false) (hemb : env.embedQueryOk = true)
    (hne : searchK env vs q searchKwargsK ≠ []) :
    retrieveRelevantChunks env (some vs) q = "" := by
  have hie : (searchK env vs q searchKwargsK).isEmpty = false := by
    cases hsk : searchK env vs q searchKwargsK with
    | nil => exact absurd hsk hne
    | cons a t => rfl
  simp [retrieveRelevantChunks, getRelevantDocuments, hemb, hie,
        compressDocuments, hce]

/-- Claim C3 witness: the amended statement at a concrete store and a concrete
unavailable cross-encoder. -/
theorem c3_witness :
    envCeDown.ce.loaded = false ∧ envCeDown.embedQueryOk = true ∧
    searchK envCeDown ⟨["governing law"]⟩ "q" searchKwargsK ≠ [] ∧
    retrieveRelevantChunks envCeDown (some ⟨["governing law"]⟩) "q" = "" :=
  ⟨rfl, rfl, by decide,
   c3_ce_failure_yields_empty envCeDown ⟨["governing law"]⟩ "q" rfl rfl (by decide)⟩

/-! ### Claim C4 -/

/-- Claim C4: a cache entry that exists but fails to load is treated exactly
as a miss: initialization proceeds as the rebuild from the document text, the
corrupt entry is never returned as a store, and no load error reaches the
caller. -/
theorem c4_corrupt_cache_rebuilds (env : Env) (fs : FileSystem) (doc : String)
    (h : fs.lookup (cacheFolderPath (documentId doc)) = some CacheEntry.corrupt) :
    initVectorStore env fs doc =
      buildAndSaveVectorStore env fs doc (cacheFolderPath (documentId doc)) := by
  simp [initVectorStore, h]

/-- Claim C4 witness: the corrupt-entry statement at a concrete cache. -/
theorem c4_witness :
    fsCorrupt.lookup (cacheFolderPath (documentId "rental contract")) =
      some CacheEntry.corrupt ∧
    initVectorStore envOk fsCorrupt "rental contract" =
      buildAndSaveVectorStore envOk fsCorrupt "rental contract"
        (cacheFolderPath (documentId "rental contract")) :=
  ⟨lookup_cons_self _ _ _,
   c4_corrupt_cache_rebuilds envOk fsCorrupt "rental contract"
     (lookup_cons_self _ _ _)⟩

/-! ### Claim C5 -/

/-- Claim C5: blank or whitespace-only text produces zero chunks without an
error, the build phase yields no store and makes no embedding call, and
retrieval over the resulting state (whose retriever slot is empty because no
store exists) returns the empty string without an error. -/
theorem c5_blank_text_empty_everywhere (env : Env) (fs : FileSystem)
    (text q : String) (hb : isBlank text = true)
    (hmiss : fs.lookup (cacheFolderPath (documentId text)) = none) :
    getSemanticChunks env text = [] ∧
    initVectorStore env fs text = ⟨none, fs, 0⟩ ∧
    retrieveRelevantChunks env (initVectorStore env fs text).store q = "" := by
  have h1 : getSemanticChunks env text = [] := by simp [getSemanticChunks, hb]
  have h2 : initVectorStore env fs text = ⟨none, fs, 0⟩ := by
    simp [initVectorStore, hmiss, buildAndSaveVectorStore, h1, hb]
  exact ⟨h1, h2, by rw [h2]; rfl⟩

/-- Claim C5 witness: the blank-input statement at a concrete whitespace-only
text and an empty cache. -/
theorem c5_witness :
    isBlank "  \t\n  " = true ∧
    ([] : FileSystem).lookup (cacheFolderPath (documentId "  \t\n  ")) = none ∧
    getSemanticChunks envOk "  \t\n  " = [] ∧
    initVectorStore envOk [] "  \t\n  " = ⟨none, [], 0⟩ ∧
    retrieveRelevantChunks envOk (initVectorStore envOk [] "  \t\n  ").store "any question" = "" := by
  have h := c5_blank_text_empty_everywhere envOk [] "  \t\n  " "any question"
    (by decide) rfl
  exact ⟨by decide, rfl, h.1, h.2.1, h.2.2⟩

/-! ### Claim C6 -/

/-- Claim C6: when a first construction over an uncached document succeeds in
building a store (and therefore saves it under the document hash), a second
construction over the byte-identical text hits the cache: it returns the very
store the first build produced, leaves the cache unchanged, and makes zero
embedding calls. -/
theorem c6_second_build_is_cache_hit (env : Env) (fs : FileSystem)
    (doc : String) (vs : VectorStore)
    (hmiss : fs.lookup (cacheFolderPath (documentId doc)) = none)
    (hbuilt : (initVectorStore env fs doc).store = some vs) :
    initVectorStore env (initVectorStore env fs doc).fs doc =
      ⟨some vs, (initVectorStore env fs doc).fs, 0⟩ := by
  have h1 : initVectorStore env fs doc =
      buildAndSaveVectorStore env fs doc (cacheFolderPath (documentId doc)) := by
    simp [initVectorStore, hmiss]
  rw [h1] at hbuilt ⊢
  have hsave := buildAndSave_saves env fs doc (cacheFolderPath (documentId doc)) vs hbuilt
  simp [initVectorStore, hsave]

/-- Claim C6 witness: the cache-hit statement at a concrete document, empty
cache and a well-behaved environment. -/
theorem c6_witness :
    ([] : FileSystem).lookup (cacheFolderPath (documentId "hello world")) = none ∧
    (initVectorStore envOk [] "hello world").store = some ⟨["hello world"]⟩ ∧
    initVectorStore envOk (initVectorStore envOk [] "hello world").fs "hello world" =
      ⟨some ⟨["hello world"]⟩, (initVectorStore envOk [] "hello world").fs, 0⟩ :=
  ⟨rfl, rfl,
   c6_second_build_is_cache_hit envOk [] "hello world" ⟨["hello world"]⟩ rfl rfl⟩

/-! ### Claim C7 -/

/-- Claim C7: the base vector search returns at most k = 7 candidates, the
reranker returns at most n = 3 with n ≤ k, its output is a subset of the
candidate set it was given (only reordered, nothing introduced), and the
output is ordered by descending cross-encoder score, most relevant first. -/
theorem c7_bounds_subset_order (env : Env) (vs : VectorStore) (q : String)
    (hce : env.ce.loaded = true) :
    (searchK env vs q searchKwargsK).length ≤ searchKwargsK ∧
    rerankTopN ≤ searchKwargsK ∧
    compressDocuments env q (searchK env vs q searchKwargsK) =
      .ok (rerankDescending env q (searchK env vs q searchKwargsK)) ∧
    (rerankDescending env q (searchK env vs q searchKwargsK)).length ≤ rerankTopN ∧
    (∀ d ∈ rerankDescending env q (searchK env vs q searchKwargsK),
        d ∈ searchK env vs q searchKwargsK) ∧
    (rerankDescending env q (searchK env vs q searchKwargsK)).Sorted
      (fun a b => env.ce.score q b.pageContent ≤ env.ce.score q a.pageContent) := by
  refine ⟨?_, by decide, by simp [compressDocuments, hce], ?_, ?_, ?_⟩
  · exact List.length_take_le _ _
  · exact List.length_take_le _ _
  · intro d hd
    have h1 : d ∈ (searchK env vs q searchKwargsK).insertionSort
        (fun a b => env.ce.score q b.pageContent ≤ env.ce.score q a.pageContent) :=
      List.take_subset _ _ hd
    exact (List.perm_insertionSort _ _).subset h1
  · haveI ht : IsTotal Doc
        (fun a b => env.ce.score q b.pageContent ≤ env.ce.score q a.pageContent) :=
      ⟨fun a b => Int.le_total _ _⟩
    haveI htr : IsTrans Doc
        (fun a b => env.ce.score q b.pageContent ≤ env.ce.score q a.pageContent) :=
      ⟨fun _ _ _ hab hbc => le_trans hbc hab⟩
    exact (List.sorted_insertionSort _ _).sublist (List.take_sublist _ _)

/-- Claim C7 witness: the bounds, subset and ordering statement at a concrete
store and query. -/
theorem c7_witness :
    envOk.ce.loaded = true ∧
    ((searchK envOk ⟨["severability", "liability cap"]⟩ "q" searchKwargsK).length ≤ searchKwargsK ∧
     rerankTopN ≤ searchKwargsK ∧
     compressDocuments envOk "q" (searchK envOk ⟨["severability", "liability cap"]⟩ "q" searchKwargsK) =
       .ok (rerankDescending envOk "q" (searchK envOk ⟨["severability", "liability cap"]⟩ "q" searchKwargsK)) ∧
     (rerankDescending envOk "q" (searchK envOk ⟨["severability", "liability cap"]⟩ "q" searchKwargsK)).length ≤ rerankTopN ∧
     (∀ d ∈ rerankDescending envOk "q" (searchK envOk ⟨["severability", "liability cap"]⟩ "q" searchKwargsK),
         d ∈ searchK envOk ⟨["severability", "liability cap"]⟩ "q" searchKwargsK) ∧
     (rerankDescending envOk "q" (searchK envOk ⟨["severability", "liability cap"]⟩ "q" searchKwargsK)).Sorted
       (fun a b => envOk.ce.score "q" b.pageContent ≤ envOk.ce.score "q" a.pageContent)) :=
  ⟨rfl, c7_bounds_subset_order envOk ⟨["severability", "liability cap"]⟩ "q" rfl⟩

/-! ### Claim C8 -/

/-- Claim C8, counterexample: two environments whose cross-encoders assign
different scores to every passage (with the same induced ranking) produce
byte-identical retrieval results, so the returned value carries no relevance
scores; it is one concatenated string, not a list of passage-score pairs, and
no k or n is accepted per call. -/
theorem c8_counterexample :
    retrieveRelevantChunks envScoreA (some ⟨["alpha", "beta"]⟩) "q" =
      retrieveRelevantChunks envScoreB (some ⟨["alpha", "beta"]⟩) "q" ∧
    envScoreA.ce.score "q" "alpha" ≠ envScoreB.ce.score "q" "alpha" ∧
    envScoreA.ce.score "q" "beta" ≠ envScoreB.ce.score "q" "beta" :=
  ⟨rfl, by decide, by decide⟩

/-- Claim C8 amended: the exposed operation takes only the query; k = 7 and
n = 3 are fixed when the retriever is initialized, and the result is the
reranked passages joined into one separator-delimited string, without
scores. -/
theorem c8_interface_shape (env : Env) (vs : VectorStore) (q : String)
    (docs : List Doc) (h : getRelevantDocuments env vs q = .ok docs) :
    searchKwargsK = 7 ∧ rerankTopN = 3 ∧
    retrieveRelevantChunks env (some vs) q =
      (if docs.isEmpty then ""
       else String.intercalate contextSep (docs.map Doc.pageContent)) := by
  exact ⟨rfl, rfl, by simp [retrieveRelevantChunks, h]⟩

/-- Claim C8 witness: the interface statement at a concrete store and query
whose retrieval succeeds with two passages. -/
theorem c8_witness :
    getRelevantDocuments envOk ⟨["alpha", "beta"]⟩ "q" = .ok [⟨"alpha"⟩, ⟨"beta"⟩] ∧
    (searchKwargsK = 7 ∧ rerankTopN = 3 ∧
     retrieveRelevantChunks envOk (some ⟨["alpha", "beta"]⟩) "q" =
       (if ([⟨"alpha"⟩, ⟨"beta"⟩] : List Doc).isEmpty then ""
        else String.intercalate contextSep (([⟨"alpha"⟩, ⟨"beta"⟩] : List Doc).map Doc.pageContent))) :=
  ⟨rfl, c8_interface_shape envOk ⟨["alpha", "beta"]⟩ "q" [⟨"alpha"⟩, ⟨"beta"⟩] rfl⟩

/-! ### Claim C9 -/

/-- Claim C9: retrieve_relevant_chunks is total at the public interface: an
absent retriever returns the empty string, and every failure outcome of the
wrapped retriever call is caught and mapped to the empty string, so the
function returns a string in every modeled state and never propagates an
exception. -/
theorem c9_retrieval_total (env : Env) (q : String) :
    retrieveRelevantChunks env none q = "" ∧
    ∀ (vs : VectorStore) (e : RetrievalError),
      getRelevantDocuments env vs q = .error e →
      retrieveRelevantChunks env (some vs) q = "" := by
  refine ⟨rfl, fun vs e he => ?_⟩
  simp [retrieveRelevantChunks, he]

/-- Claim C9 witness: totality at a concrete state without a retriever and a
concrete state whose backend fails. -/
theorem c9_witness :
    retrieveRelevantChunks envEmbedDown none "query" = "" ∧
    retrieveRelevantChunks envEmbedDown (some ⟨["term"]⟩) "query" = "" :=
  ⟨(c9_retrieval_total envEmbedDown "query").1,
   (c9_retrieval_total envEmbedDown "query").2 ⟨["term"]⟩ .embeddingUnavailable rfl⟩

/-! ### Claim C10 -/

/-- Claim C10: the Config class of this repository defines no
EMBEDDING_MODEL_NAME attribute, and RAGService construction reads it at line
32 before any cache probe, chunking or embedding, so construction raises
AttributeError for every document text and every environment and no index is
ever built or loaded. -/
theorem c10_init_raises_attribute_error (env : Env) (fs : FileSystem)
    (document_text : String) :
    configAttrNames.contains "EMBEDDING_MODEL_NAME" = false ∧
    ragServiceInit env fs document_text = .error PyError.attributeError := by
  have h : configAttrNames.contains "EMBEDDING_MODEL_NAME" = false := by decide
  refine ⟨h, ?_⟩
  unfold ragServiceInit
  rw [h]
  rfl

end LegalRAG
